import Mathlib

set_option maxHeartbeats 1000000
set_option maxRecDepth 100000

/-!
Shallow embedding of the session-lifecycle subsystem of the
suscribed-server repository: the auth service (signup, login, refresh
rotation, logout, password change), the error-code taxonomy, the global
error handler, and the static role/permission table, together with
theorems settling the frozen claims about them.

The refresh-token ledger (Mongo collection RefreshToken) is modelled as a
list of records plus a fresh-id counter; each Mongoose call used by the
service becomes one primitive operation on that state:
  findOne {token}        -> findToken
  deleteOne {_id}        -> deleteOneById   (removes the first id match)
  deleteOne {userId,token} -> deleteOneUserToken (first match)
  deleteMany {userId}    -> deleteManyByUser (all matches)
  create {...}           -> createRecord    (append, fresh _id)
Randomness (crypto.randomBytes) is an explicit entropy input; bcrypt is an
explicit verification-function input.
-/

/-! ## Error taxonomy (src/utils/errorCodes.ts, src/middleware/errorHandler.ts) -/

inductive ErrorCode
  | UNAUTHORIZED
  | INVALID_CREDENTIALS
  | TOKEN_EXPIRED
  | INVALID_TOKEN
  | FORBIDDEN
  | INVALID_INPUT
  | USER_NOT_FOUND
  | CONFLICT
  | DUPLICATE_EMAIL
  | DUPLICATE_USERNAME
  | ACCOUNT_DEACTIVATED
  | SERVER_ERROR
  deriving DecidableEq, Repr

/-- HTTP status for each code (ErrorStatusCodes table). -/
def errorStatusCode : ErrorCode → Nat
  | .UNAUTHORIZED => 401
  | .INVALID_CREDENTIALS => 401
  | .TOKEN_EXPIRED => 401
  | .INVALID_TOKEN => 401
  | .FORBIDDEN => 403
  | .INVALID_INPUT => 400
  | .USER_NOT_FOUND => 404
  | .CONFLICT => 409
  | .DUPLICATE_EMAIL => 409
  | .DUPLICATE_USERNAME => 409
  | .ACCOUNT_DEACTIVATED => 403
  | .SERVER_ERROR => 500

/-- The machine-readable code string (ErrorCodes table). -/
def errorCodeName : ErrorCode → String
  | .UNAUTHORIZED => "UNAUTHORIZED"
  | .INVALID_CREDENTIALS => "INVALID_CREDENTIALS"
  | .TOKEN_EXPIRED => "TOKEN_EXPIRED"
  | .INVALID_TOKEN => "INVALID_TOKEN"
  | .FORBIDDEN => "FORBIDDEN"
  | .INVALID_INPUT => "INVALID_INPUT"
  | .USER_NOT_FOUND => "USER_NOT_FOUND"
  | .CONFLICT => "CONFLICT"
  | .DUPLICATE_EMAIL => "DUPLICATE_EMAIL"
  | .DUPLICATE_USERNAME => "DUPLICATE_USERNAME"
  | .ACCOUNT_DEACTIVATED => "ACCOUNT_DEACTIVATED"
  | .SERVER_ERROR => "SERVER_ERROR"

/-- Default message per code (ErrorMessages table, the codes this model uses). -/
def errorDefaultMessage : ErrorCode → String
  | .UNAUTHORIZED => "Authentication required"
  | .INVALID_CREDENTIALS => "Invalid email or password"
  | .TOKEN_EXPIRED => "Token has expired"
  | .INVALID_TOKEN => "Invalid or malformed token"
  | .FORBIDDEN => "You do not have permission to perform this action"
  | .INVALID_INPUT => "The provided input is invalid"
  | .USER_NOT_FOUND => "User not found"
  | .CONFLICT => "Resource already exists"
  | .DUPLICATE_EMAIL => "Email is already registered"
  | .DUPLICATE_USERNAME => "Username is already taken"
  | .ACCOUNT_DEACTIVATED => "This account has been deactivated"
  | .SERVER_ERROR => "An unexpected error occurred"

/-- AppError: code plus the optional constructor message
(message defaults to ErrorMessages[code] when absent). -/
structure AppError where
  code : ErrorCode
  message : Option String
  deriving DecidableEq, Repr

/-- super(message or ErrorMessages[code]) in the AppError constructor. -/
def AppError.renderedMessage (e : AppError) : String :=
  e.message.getD (errorDefaultMessage e.code)

/-! ## Users and the refresh ledger -/

inductive UserRole
  | member
  | creator
  | admin
  deriving DecidableEq, Repr

structure UserRec where
  id : Nat
  email : String
  username : String
  passwordHash : String
  role : UserRole
  isActive : Bool
  googleId : Option String
  deriving DecidableEq, Repr

structure RefreshRec where
  id : Nat
  userId : Nat
  token : String
  expiresAt : Nat
  deriving DecidableEq, Repr

/-- Ledger state: the RefreshToken collection plus a fresh-_id counter. -/
structure St where
  recs : List RefreshRec
  nextId : Nat
  deriving DecidableEq, Repr

/-- RefreshToken.findOne \x7b token \x7d returns the first match. -/
def findToken (t : String) (st : St) : Option RefreshRec :=
  st.recs.find? (fun r => r.token == t)

/-- RefreshToken.deleteOne \x7b _id \x7d removes the first (hence, ids being
unique, the only) record with that id; zero matches is a no-op success. -/
def deleteOneById (i : Nat) (st : St) : St :=
  { st with recs := st.recs.eraseP (fun r => r.id == i) }

/-- RefreshToken.deleteOne \x7b userId, token \x7d removes the first match. -/
def deleteOneUserToken (uid : Nat) (t : String) (st : St) : St :=
  { st with recs := st.recs.eraseP (fun r => r.userId == uid && r.token == t) }

/-- RefreshToken.deleteMany \x7b userId \x7d removes every match. -/
def deleteManyByUser (uid : Nat) (st : St) : St :=
  { st with recs := st.recs.filter (fun r => !(r.userId == uid)) }

/-- RefreshToken.create appends a record under a fresh _id. -/
def createRecord (uid : Nat) (tok : String) (expAt : Nat) (st : St) : St :=
  { recs := st.recs ++ [⟨st.nextId, uid, tok, expAt⟩], nextId := st.nextId + 1 }

/-- User.findById. -/
def findById (users : List UserRec) (uid : Nat) : Option UserRec :=
  users.find? (fun u => u.id == uid)

/-- Store invariant maintained by Mongo unique indexes: _id values are
unique, and the RefreshToken schema declares token unique. -/
def ledgerWf (st : St) : Prop :=
  st.recs.Pairwise (fun a b => a.id ≠ b.id ∧ a.token ≠ b.token)

instance (st : St) : Decidable (ledgerWf st) :=
  List.instDecidablePairwise st.recs

/-! ## Token issuance (generateTokens, lines 115-140) -/

def hexDigit (n : Nat) : Char :=
  if n < 10 then Char.ofNat (48 + n) else Char.ofNat (87 + n)

def hexByte (b : Nat) : List Char :=
  [hexDigit (b / 16 % 16), hexDigit (b % 16)]

/-- Buffer.toString of the hex encoding of a byte sequence. -/
def hexEncode (bs : List Nat) : String :=
  String.mk ((bs.map hexByte).flatten)

/-- crypto.randomBytes(40): the byte count of the refresh-token entropy. -/
def randomBytesCount : Nat := 40

/-- config.jwt.refreshExpiry default (config/index.ts). -/
def refreshExpiryConfig : String := "7d"

/-- JS String.replace with a one-character string pattern removes the
first occurrence. -/
def removeFirstD : List Char → List Char
  | [] => []
  | c :: cs => if c = 'd' then cs else c :: removeFirstD cs

/-- parseInt(s, 10) on an all-digit string, none otherwise (NaN). -/
def parseNatDigits (cs : List Char) : Option Nat :=
  if cs.isEmpty then none
  else if cs.all (fun c => c.isDigit) then
    some (cs.foldl (fun n c => n * 10 + (c.toNat - 48)) 0)
  else none

/-- parseInt(config.jwt.refreshExpiry.replace(...), 10) falling back to 7. -/
def expiryDays : Nat :=
  (parseNatDigits (removeFirstD refreshExpiryConfig.data)).getD 7

/-- expiryDays * 24 * 60 * 60 * 1000 milliseconds. -/
def refreshTtlMs : Nat := expiryDays * 24 * 60 * 60 * 1000

/-- The signed access-token claim set \x7b userId, email, role \x7d. -/
structure JWTPayload where
  userId : Nat
  email : String
  role : UserRole
  deriving DecidableEq, Repr

structure AuthTokens where
  accessToken : JWTPayload
  refreshToken : String
  deriving DecidableEq, Repr

instance {ε α : Type} [DecidableEq ε] [DecidableEq α] : DecidableEq (Except ε α) :=
  fun x y =>
    match x, y with
    | .ok a, .ok b =>
      if h : a = b then .isTrue (by rw [h]) else .isFalse (fun hh => h (Except.ok.inj hh))
    | .ok _, .error _ => .isFalse (fun hh => Except.noConfusion hh)
    | .error _, .ok _ => .isFalse (fun hh => Except.noConfusion hh)
    | .error a, .error b =>
      if h : a = b then .isTrue (by rw [h]) else .isFalse (fun hh => h (Except.error.inj hh))

/-- generateTokens: sign the claim set, draw 40 random bytes, hex-encode
them as the refresh token, and store a ledger record expiring now + 7d. -/
def generateTokens (entropy : List Nat) (now : Nat) (u : UserRec) (st : St) :
    AuthTokens × St :=
  let refreshToken := hexEncode (entropy.take randomBytesCount)
  let expiresAt := now + refreshTtlMs
  (⟨⟨u.id, u.email, u.role⟩, refreshToken⟩, createRecord u.id refreshToken expiresAt st)

/-! ## Refresh rotation (refreshAccessToken, lines 332-357)

The service performs RefreshToken.findOne followed by separate
RefreshToken.deleteOne calls.  `rotateLookup` is the findOne read and
`rotateFinish` everything after it, so that interleavings of two
concurrent calls are expressible; the sequential function is their
composition. -/

def rotateLookup (t : String) (st : St) : Option RefreshRec :=
  findToken t st

def rotateFinish (users : List UserRec) (now : Nat) (entropy : List Nat)
    (found : Option RefreshRec) (st : St) :
    Except AppError AuthTokens × St :=
  match found with
  | none => (.error ⟨.INVALID_TOKEN, none⟩, st)
  | some tokenDoc =>
    if tokenDoc.expiresAt < now then
      (.error ⟨.TOKEN_EXPIRED, none⟩, deleteOneById tokenDoc.id st)
    else
      match findById users tokenDoc.userId with
      | none => (.error ⟨.USER_NOT_FOUND, none⟩, st)
      | some u =>
        if u.isActive = false then
          (.error ⟨.USER_NOT_FOUND, none⟩, st)
        else
          let st1 := deleteOneById tokenDoc.id st
          let p := generateTokens entropy now u st1
          (.ok p.1, p.2)

def refreshAccessToken (users : List UserRec) (now : Nat) (entropy : List Nat)
    (t : String) (st : St) : Except AppError AuthTokens × St :=
  rotateFinish users now entropy (rotateLookup t st) st

/-! ## Logout (lines 360-368) and password change (lines 377-406) -/

def logout (userId : Nat) (refreshToken : Option String) (st : St) : St :=
  match refreshToken with
  | some t => deleteOneUserToken userId t st
  | none => deleteManyByUser userId st

/-- changePassword(userId, \x7b currentPassword, newPassword \x7d).
bcrypt.compare is the `verify` input; the pre-save hook's bcrypt.hash of
the new password is the `newHash` input.  Returns the outcome with the
updated user list and ledger. -/
def changePassword (verify : String → String → Bool) (newHash : String)
    (users : List UserRec) (userId : Nat)
    (currentPassword : String) (st : St) :
    Except AppError Unit × (List UserRec × St) :=
  match findById users userId with
  | none => (.error ⟨.USER_NOT_FOUND, none⟩, (users, st))
  | some u =>
    if u.googleId.isSome then
      (.error ⟨.FORBIDDEN, some "Google authenticated users cannot change password"⟩,
        (users, st))
    else if verify currentPassword u.passwordHash = false then
      (.error ⟨.INVALID_CREDENTIALS, some "Current password is incorrect"⟩,
        (users, st))
    else
      (.ok (),
        (users.map (fun v => if v.id == userId then { v with passwordHash := newHash } else v),
          deleteManyByUser userId st))

/-- email.toLowerCase(), character by character. -/
def toLowerStr (s : String) : String :=
  String.mk (s.data.map Char.toLower)

/-! ## Login (lines 199-235) -/

/-- login(\x7b email, password \x7d); bcrypt.compare is the `verify` input,
entropy feeds generateTokens on success. -/
def login (verify : String → String → Bool) (users : List UserRec)
    (now : Nat) (entropy : List Nat)
    (email password : String) (st : St) :
    Except AppError (AuthTokens × Bool) × St :=
  match users.find? (fun u => u.email == toLowerStr email) with
  | none => (.error ⟨.INVALID_CREDENTIALS, none⟩, st)
  | some u =>
    if u.isActive = false then
      (.error ⟨.ACCOUNT_DEACTIVATED, none⟩, st)
    else if verify password u.passwordHash = false then
      if u.googleId.isSome then
        (.error ⟨.INVALID_CREDENTIALS,
          some "This account uses Google Sign-In. Please sign in with Google."⟩, st)
      else
        (.error ⟨.INVALID_CREDENTIALS, none⟩, st)
    else
      let p := generateTokens entropy now u st
      (.ok (p.1, false), p.2)

/-! ## Concrete demonstration data -/

def demoUsers : List UserRec :=
  [⟨1, "a@x.com", "a_user", "hash1", .member, true, none⟩]

def demoSt : St := ⟨[⟨0, 1, "tok", 1000⟩], 1⟩

def demoE : List Nat := List.replicate 40 1

def demoE2 : List Nat := List.replicate 40 2

def demoRot : Except AppError AuthTokens × St :=
  refreshAccessToken demoUsers 500 demoE "tok" demoSt

def demoPair : AuthTokens :=
  ⟨⟨1, "a@x.com", UserRole.member⟩, hexEncode (demoE.take randomBytesCount)⟩

/-- True when the rotation outcome is a fresh pair. -/
def rotationSucceeded (r : Except AppError AuthTokens) : Bool :=
  match r with
  | .ok _ => true
  | .error _ => false

def demoStC3 : St := ⟨[⟨0, 9, "tok3", 1000⟩], 1⟩

def demoUsersInactive : List UserRec :=
  [⟨9, "b@x.com", "b_user", "hash2", .member, false, none⟩]

def demoUsersCP : List UserRec :=
  [⟨1, "a@x.com", "a_user", "pw", .member, true, none⟩]

def demoStCP : St := ⟨[⟨0, 1, "tokA", 1000⟩, ⟨1, 1, "tokB", 2000⟩], 2⟩

def demoCP : Except AppError Unit × (List UserRec × St) :=
  changePassword (fun c h => c == h) "nh" demoUsersCP 1 "pw" demoStCP

def demoUser7 : UserRec := ⟨1, "a@x.com", "a_user", "h", .member, true, none⟩

def demoE7 : List Nat := List.replicate 40 171

/-! ## C8: the signup race and the global error handler -/

inductive StoreWriteError
  | duplicateKey (keyField : String)
  deriving DecidableEq, Repr

/-- What reaches the global error handler: an AppError thrown by the
service, or a raw store error propagated uncaught. -/
inductive Thrown
  | app (e : AppError)
  | store (e : StoreWriteError)
  deriving DecidableEq, Repr

/-- User.create under the unique indexes on email and username: the write
is rejected with a raw duplicate-key error when a conflicting record is
already committed. -/
def userCreate (stCreate : List UserRec) (newUser : UserRec) :
    Except StoreWriteError (List UserRec) :=
  if stCreate.any (fun u => u.email == newUser.email) then
    .error (.duplicateKey "email")
  else if stCreate.any (fun u => u.username == newUser.username) then
    .error (.duplicateKey "username")
  else
    .ok (stCreate ++ [newUser])

/-- signup (lines 150-196), with the existence pre-checks reading state
stCheck while User.create writes against state stCreate: under concurrency
a competing signup may commit between the two reads and the write.  The
pre-check failures are wrapped in AppErrors; a store rejection of the
create is propagated raw (there is no try/catch around User.create). -/
def signupStepped (stCheck stCreate : List UserRec) (nextUid : Nat)
    (email password username : String) (role : UserRole) :
    Except Thrown (List UserRec) :=
  if (stCheck.find? (fun u => u.email == toLowerStr email)).isSome then
    .error (.app ⟨.DUPLICATE_EMAIL, none⟩)
  else if (stCheck.find? (fun u => u.username == toLowerStr username)).isSome then
    .error (.app ⟨.DUPLICATE_USERNAME, none⟩)
  else
    match userCreate stCreate
        ⟨nextUid, toLowerStr email, toLowerStr username, password, role, true, none⟩ with
    | .error e => .error (.store e)
    | .ok users => .ok users

/-- errorHandler (middleware/errorHandler.ts, lines 139-180): status and
code come from the error when it is an AppError, else 500/SERVER_ERROR. -/
def errorHandlerResponse (err : Thrown) : Nat × String :=
  match err with
  | .app e => (errorStatusCode e.code, errorCodeName e.code)
  | .store _ => (errorStatusCode .SERVER_ERROR, errorCodeName .SERVER_ERROR)

/-! ## C9: password-mismatch handling in login -/

def demoUserGoogle : UserRec :=
  ⟨2, "g@x.com", "g_user", "hash3", .member, true, some "gsub"⟩

/-! ## C10: the static role/permission matrix -/

inductive Permission
  | postCreate
  | postRead
  | postUpdate
  | postDelete
  | dashboardView
  | analyticsView
  | membersView
  | payoutsView
  | pageManage
  | exploreView
  | subscriptionsView
  | securityManage
  | adminAccess
  deriving DecidableEq, Repr

/-- The permission string literals of types/index.ts. -/
def permissionName : Permission → String
  | .postCreate => "post:create"
  | .postRead => "post:read"
  | .postUpdate => "post:update"
  | .postDelete => "post:delete"
  | .dashboardView => "dashboard:view"
  | .analyticsView => "analytics:view"
  | .membersView => "members:view"
  | .payoutsView => "payouts:view"
  | .pageManage => "page:manage"
  | .exploreView => "explore:view"
  | .subscriptionsView => "subscriptions:view"
  | .securityManage => "security:manage"
  | .adminAccess => "admin:access"

/-- constants/permissions.ts ROLE_PERMISSIONS, entry for entry. -/
def ROLE_PERMISSIONS : UserRole → List Permission
  | .creator => [.postCreate, .postRead, .postUpdate, .postDelete,
      .dashboardView, .analyticsView, .membersView, .payoutsView, .pageManage]
  | .member => [.postRead, .exploreView, .subscriptionsView, .securityManage]
  | .admin => [.postCreate, .postRead, .postUpdate, .postDelete,
      .dashboardView, .analyticsView, .membersView, .payoutsView, .pageManage,
      .exploreView, .subscriptionsView, .adminAccess]

/-- hasPermission(userRole, permission): false on undefined role, else a
membership test in the static table. -/
def hasPermission (userRole : Option UserRole) (p : Permission) : Bool :=
  match userRole with
  | none => false
  | some r => (ROLE_PERMISSIONS r).contains p

/-- The request identity attached by the auth middleware. -/
structure AuthUser where
  id : Nat
  role : UserRole
  deriving DecidableEq, Repr

inductive GuardOutcome
  | failUnauthorized (message : String)
  | failForbidden (message : String)
  | proceed
  deriving DecidableEq, Repr

/-- requirePermission (middleware/auth.ts, lines 248-260). -/
def requirePermission (p : Permission) (reqUser : Option AuthUser) : GuardOutcome :=
  match reqUser with
  | none => .failUnauthorized "Authentication required"
  | some u =>
    if hasPermission (some u.role) p = false then
      .failForbidden ("Access denied. Required permission: " ++ permissionName p)
    else
      .proceed

def allRoles : List UserRole := [.member, .creator, .admin]

def allPermissions : List Permission :=
  [.postCreate, .postRead, .postUpdate, .postDelete, .dashboardView,
   .analyticsView, .membersView, .payoutsView, .pageManage, .exploreView,
   .subscriptionsView, .securityManage, .adminAccess]

/-! ## Helper lemmas about the ledger primitives -/

/-- Two ledger records with the same token value are the same record when
token values are pairwise distinct. -/
theorem token_unique_eq (l : List RefreshRec) (a b : RefreshRec)
    (hwf : l.Pairwise (fun x y => x.token ≠ y.token))
    (ha : a ∈ l) (hb : b ∈ l) (hab : a.token = b.token) : a = b := by
  induction l with
  | nil => cases ha
  | cons c l ih =>
    rw [List.pairwise_cons] at hwf
    rcases List.mem_cons.1 ha with rfl | ha2
    · rcases List.mem_cons.1 hb with rfl | hb2
      · rfl
      · exact absurd hab (hwf.1 b hb2)
    · rcases List.mem_cons.1 hb with rfl | hb2
      · exact absurd hab.symm (hwf.1 a ha2)
      · exact ih hwf.2 ha2 hb2

/-- Deleting (by _id) the record that findOne by token returned leaves no
record with that token, given the unique indexes. -/
theorem find_token_eraseP_by_id (l : List RefreshRec) (t : String) (d : RefreshRec)
    (hwf : l.Pairwise (fun a b => a.id ≠ b.id ∧ a.token ≠ b.token))
    (hfind : l.find? (fun r => r.token == t) = some d) :
    (l.eraseP (fun r => r.id == d.id)).find? (fun r => r.token == t) = none := by
  induction l with
  | nil => simp at hfind
  | cons a l ih =>
    rw [List.pairwise_cons] at hwf
    by_cases ha : a.token = t
    · have had : a = d := by
        rw [List.find?_cons_of_pos _ (by simp [ha])] at hfind
        exact Option.some.inj hfind
      rw [List.eraseP_cons_of_pos (by simp [had])]
      rw [List.find?_eq_none]
      intro r hr
      simp only [beq_iff_eq]
      intro hrt
      exact (hwf.1 r hr).2 (by rw [ha, hrt])
    · rw [List.find?_cons_of_neg _ (by simp [ha])] at hfind
      have hd : d ∈ l := List.mem_of_find?_eq_some hfind
      have hne : ¬ ((fun r : RefreshRec => r.id == d.id) a) = true := by
        simp only [beq_iff_eq]
        exact (hwf.1 d hd).1
      rw [List.eraseP_cons_of_neg (p := fun r : RefreshRec => r.id == d.id) hne]
      rw [List.find?_cons_of_neg _ (by simp [ha])]
      exact ih hwf.2 hfind

/-- Deleting every record of the owner of the record findOne returned
leaves no record with that token, given the unique indexes. -/
theorem find_token_filter_user_none (l : List RefreshRec) (t : String) (uid : Nat)
    (d : RefreshRec)
    (hwf : l.Pairwise (fun a b => a.id ≠ b.id ∧ a.token ≠ b.token))
    (hfind : l.find? (fun r => r.token == t) = some d)
    (howner : d.userId = uid) :
    (l.filter (fun r => !(r.userId == uid))).find? (fun r => r.token == t) = none := by
  rw [List.find?_eq_none]
  intro r hr
  rw [List.mem_filter] at hr
  obtain ⟨hrl, hru⟩ := hr
  simp only [beq_iff_eq]
  intro hrt
  have hdl : d ∈ l := List.mem_of_find?_eq_some hfind
  have hdt := List.find?_some hfind
  simp only [beq_iff_eq] at hdt
  have hrd : r = d :=
    token_unique_eq l r d (hwf.imp (fun h => h.2)) hrl hdl (by rw [hrt, hdt])
  have hru2 : r.userId ≠ uid := by simpa using hru
  exact hru2 (by rw [hrd, howner])

/-- A record that survives a filter is still what findOne by its token
returns afterwards. -/
theorem find_token_filter_keep (l : List RefreshRec) (t : String)
    (q : RefreshRec → Bool) (d : RefreshRec)
    (hfind : l.find? (fun r => r.token == t) = some d)
    (hq : q d = true) :
    (l.filter q).find? (fun r => r.token == t) = some d := by
  induction l with
  | nil => simp at hfind
  | cons a l ih =>
    by_cases ha : a.token = t
    · rw [List.find?_cons_of_pos _ (by simp [ha])] at hfind
      have had : a = d := Option.some.inj hfind
      subst had
      rw [List.filter_cons_of_pos hq]
      exact List.find?_cons_of_pos _ (by simp [ha])
    · rw [List.find?_cons_of_neg _ (by simp [ha])] at hfind
      by_cases hqa : q a = true
      · rw [List.filter_cons_of_pos hqa, List.find?_cons_of_neg _ (by simp [ha])]
        exact ih hfind
      · rw [List.filter_cons_of_neg (by simpa using hqa)]
        exact ih hfind

/-- deleteOne on the (userId, token) pair removes every matching record
(of which there is at most one, tokens being unique). -/
theorem eraseP_userToken_eq_filter (l : List RefreshRec) (uid : Nat) (t : String)
    (hwf : l.Pairwise (fun a b => a.id ≠ b.id ∧ a.token ≠ b.token)) :
    l.eraseP (fun r => r.userId == uid && r.token == t)
      = l.filter (fun r => !(r.userId == uid && r.token == t)) := by
  induction l with
  | nil => rfl
  | cons a l ih =>
    rw [List.pairwise_cons] at hwf
    by_cases hp : (a.userId == uid && a.token == t) = true
    · rw [List.eraseP_cons_of_pos (p := fun r : RefreshRec => r.userId == uid && r.token == t) hp,
        List.filter_cons_of_neg (by simp [hp])]
      rw [List.filter_eq_self.2]
      intro r hr
      simp only [Bool.and_eq_true, beq_iff_eq] at hp
      have hrt : r.token ≠ t := by
        intro hrt
        exact (hwf.1 r hr).2 (by rw [hp.2, hrt])
      simp [hrt]
    · have hp2 : (a.userId == uid && a.token == t) = false := Bool.eq_false_iff.mpr hp
      rw [List.eraseP_cons_of_neg (p := fun r : RefreshRec => r.userId == uid && r.token == t)
        (by simp [hp2])]
      rw [List.filter_cons_of_pos (by simp [hp2])]
      rw [ih hwf.2]

/-- Success characterization of the sequential rotation. -/
theorem rotate_ok_of (users : List UserRec) (now : Nat) (entropy : List Nat)
    (t : String) (st : St) (d : RefreshRec) (u : UserRec)
    (hfind : findToken t st = some d)
    (hexp : ¬ d.expiresAt < now)
    (hu : findById users d.userId = some u)
    (hact : u.isActive = true) :
    refreshAccessToken users now entropy t st
      = (.ok ⟨⟨u.id, u.email, u.role⟩, hexEncode (entropy.take randomBytesCount)⟩,
          createRecord u.id (hexEncode (entropy.take randomBytesCount))
            (now + refreshTtlMs) (deleteOneById d.id st)) := by
  simp [refreshAccessToken, rotateFinish, rotateLookup, generateTokens,
    hfind, hexp, hu, hact]

/-- Inversion of a successful rotation: the record was found, unexpired,
its owner present and active, and the results are those of generateTokens
after the delete. -/
theorem refreshAccessToken_ok_inv (users : List UserRec) (now : Nat)
    (entropy : List Nat) (t : String) (st : St) (pair : AuthTokens) (st2 : St)
    (h : refreshAccessToken users now entropy t st = (.ok pair, st2)) :
    ∃ d u, findToken t st = some d ∧ ¬ d.expiresAt < now ∧
      findById users d.userId = some u ∧ u.isActive = true ∧
      pair = (generateTokens entropy now u (deleteOneById d.id st)).1 ∧
      st2 = (generateTokens entropy now u (deleteOneById d.id st)).2 := by
  unfold refreshAccessToken rotateFinish rotateLookup at h
  split at h
  · simp at h
  next d hd =>
    split at h
    · simp at h
    next hexp =>
      split at h
      · simp at h
      next u hu =>
        split at h
        · simp at h
        next hact =>
          rw [Prod.mk.injEq] at h
          refine ⟨d, u, hd, hexp, hu, ?_, ?_, h.2.symm⟩
          · cases hb : u.isActive
            · exact absurd hb hact
            · rfl
          · exact (Except.ok.inj h.1).symm

/-! ## Claims -/

/-- C1: rotation consumes exactly once.  If refreshAccessToken(t) succeeds
then the ledger record for t has been deleted, and a second call with the
same t fails with InvalidToken.  The hypotheses are the store invariants:
unique _id and token values, and the freshly drawn token differing from
the presented one (a 320-bit random collision is what the unique index
would otherwise reject). -/
theorem rotation_consumes_exactly_once
    (users : List UserRec) (now now2 : Nat) (entropy entropy2 : List Nat)
    (t : String) (st : St) (pair : AuthTokens) (st2 : St)
    (hwf : ledgerWf st)
    (hfresh : hexEncode (entropy.take randomBytesCount) ≠ t)
    (hsucc : refreshAccessToken users now entropy t st = (.ok pair, st2)) :
    findToken t st2 = none ∧
    (refreshAccessToken users now2 entropy2 t st2).1 = .error ⟨.INVALID_TOKEN, none⟩ := by
  obtain ⟨d, u, hd, hexp, hu, hact, hpair, hst2⟩ :=
    refreshAccessToken_ok_inv users now entropy t st pair st2 hsucc
  have hnone : findToken t st2 = none := by
    subst hst2
    simp only [generateTokens, createRecord, findToken, deleteOneById]
    rw [List.find?_append]
    rw [find_token_eraseP_by_id st.recs t d hwf hd]
    simp [hfresh]
  refine ⟨hnone, ?_⟩
  unfold refreshAccessToken rotateFinish rotateLookup
  rw [hnone]

/-- Witness for C1: the single-record demo ledger. -/
theorem rotation_consumes_exactly_once_witness :
    findToken "tok" demoRot.2 = none ∧
    (refreshAccessToken demoUsers 600 demoE2 "tok" demoRot.2).1
      = .error ⟨.INVALID_TOKEN, none⟩ :=
  rotation_consumes_exactly_once demoUsers 500 600 demoE demoE2 "tok" demoSt
    demoPair demoRot.2 (by decide) (by decide) (by decide)

/-- C2: the code performs the lookup and the consume as two separate store
operations (findOne, then deleteOne), not one atomic find-and-delete.  In
the interleaving where two calls presenting the same token both perform
the findOne read before either performs its deleteOne, both callers are
issued fresh pairs, violating the claimed at-most-one-success guarantee
(the second deleteOne matches zero rows, which Mongo treats as success). -/
theorem rotate_not_atomic_both_callers_succeed :
    (∀ (users : List UserRec) (now : Nat) (entropy : List Nat) (t : String) (st : St),
        refreshAccessToken users now entropy t st
          = rotateFinish users now entropy (rotateLookup t st) st)
    ∧ rotationSucceeded
        (rotateFinish demoUsers 500 demoE (rotateLookup "tok" demoSt) demoSt).1 = true
    ∧ rotationSucceeded
        (rotateFinish demoUsers 500 demoE2 (rotateLookup "tok" demoSt)
          (rotateFinish demoUsers 500 demoE (rotateLookup "tok" demoSt) demoSt).2).1
        = true :=
  ⟨fun _ _ _ _ _ => rfl, by decide, by decide⟩

/-- C4: presenting a token whose record is expired yields TokenExpired and
deletes the record as a side effect; a subsequent call with the same token
yields InvalidToken, not TokenExpired. -/
theorem rotate_expired_then_invalid
    (users users2 : List UserRec) (now now2 : Nat) (entropy entropy2 : List Nat)
    (t : String) (st : St) (d : RefreshRec)
    (hwf : ledgerWf st)
    (hfind : findToken t st = some d)
    (hexp : d.expiresAt < now) :
    refreshAccessToken users now entropy t st
      = (.error ⟨.TOKEN_EXPIRED, none⟩, deleteOneById d.id st) ∧
    findToken t (deleteOneById d.id st) = none ∧
    (refreshAccessToken users2 now2 entropy2 t (deleteOneById d.id st)).1
      = .error ⟨.INVALID_TOKEN, none⟩ := by
  have hnone : findToken t (deleteOneById d.id st) = none := by
    simp only [findToken, deleteOneById]
    exact find_token_eraseP_by_id st.recs t d hwf hfind
  refine ⟨?_, hnone, ?_⟩
  · simp [refreshAccessToken, rotateFinish, rotateLookup, hfind, hexp]
  · unfold refreshAccessToken rotateFinish rotateLookup
    rw [hnone]

/-- C3 counterexample: with an unexpired record whose owning user is
missing, the rotation fails with UserNotFound (HTTP 404), not
Unauthorized; the ledger record is not deleted; and a retry with the same
token yields UserNotFound again, not InvalidToken. -/
theorem rotate_missing_user_counterexample :
    (refreshAccessToken [] 500 demoE "tok3" demoStC3).1
      = .error ⟨.USER_NOT_FOUND, none⟩ ∧
    errorStatusCode .USER_NOT_FOUND = 404 ∧
    errorCodeName .USER_NOT_FOUND = "USER_NOT_FOUND" ∧
    (refreshAccessToken [] 500 demoE "tok3" demoStC3).2 = demoStC3 ∧
    findToken "tok3" (refreshAccessToken [] 500 demoE "tok3" demoStC3).2
      = some ⟨0, 9, "tok3", 1000⟩ ∧
    (refreshAccessToken [] 600 demoE2 "tok3"
        (refreshAccessToken [] 500 demoE "tok3" demoStC3).2).1
      = .error ⟨.USER_NOT_FOUND, none⟩ := by decide

/-- C3 amended: for an unexpired record whose owning user is missing or
inactive, refreshAccessToken fails with UserNotFound (404) and the ledger
record is NOT deleted, so the same token retried against the resulting
state finds the same record (and fails the same way, not with
InvalidToken). -/
theorem rotate_missing_or_inactive_user
    (users : List UserRec) (now : Nat) (entropy : List Nat) (t : String)
    (st : St) (d : RefreshRec)
    (hfind : findToken t st = some d)
    (hexp : ¬ d.expiresAt < now)
    (huser : ((findById users d.userId).map UserRec.isActive).getD false = false) :
    refreshAccessToken users now entropy t st
      = (.error ⟨.USER_NOT_FOUND, none⟩, st) ∧
    findToken t (refreshAccessToken users now entropy t st).2 = some d := by
  have hmain : refreshAccessToken users now entropy t st
      = (.error ⟨.USER_NOT_FOUND, none⟩, st) := by
    cases hu : findById users d.userId with
    | none => simp [refreshAccessToken, rotateFinish, rotateLookup, hfind, hexp, hu]
    | some u =>
      rw [hu] at huser
      simp only [Option.map_some', Option.getD_some] at huser
      simp [refreshAccessToken, rotateFinish, rotateLookup, hfind, hexp, hu, huser]
  exact ⟨hmain, by rw [hmain]; exact hfind⟩

/-- Witness for the C3 amendment: the owner exists but is inactive. -/
theorem rotate_missing_or_inactive_user_witness :
    refreshAccessToken demoUsersInactive 500 demoE "tok3" demoStC3
      = (.error ⟨.USER_NOT_FOUND, none⟩, demoStC3) ∧
    findToken "tok3"
        (refreshAccessToken demoUsersInactive 500 demoE "tok3" demoStC3).2
      = some ⟨0, 9, "tok3", 1000⟩ :=
  rotate_missing_or_inactive_user demoUsersInactive 500 demoE "tok3" demoStC3
    ⟨0, 9, "tok3", 1000⟩ (by decide) (by decide) (by decide)

/-- Witness for C4: a record that expired at 100 presented at time 500. -/
theorem rotate_expired_then_invalid_witness :
    refreshAccessToken demoUsers 500 demoE "tokE" ⟨[⟨0, 1, "tokE", 100⟩], 1⟩
      = (.error ⟨.TOKEN_EXPIRED, none⟩, deleteOneById 0 ⟨[⟨0, 1, "tokE", 100⟩], 1⟩) ∧
    findToken "tokE" (deleteOneById 0 ⟨[⟨0, 1, "tokE", 100⟩], 1⟩) = none ∧
    (refreshAccessToken demoUsers 600 demoE2 "tokE"
        (deleteOneById 0 ⟨[⟨0, 1, "tokE", 100⟩], 1⟩)).1
      = .error ⟨.INVALID_TOKEN, none⟩ :=
  rotate_expired_then_invalid demoUsers demoUsers 500 600 demoE demoE2 "tokE"
    ⟨[⟨0, 1, "tokE", 100⟩], 1⟩ ⟨0, 1, "tokE", 100⟩ (by decide) (by decide) (by decide)

/-- C5: after changePassword succeeds, every ledger record owned by userId
has been deleted, so any refresh token whose ledger record belonged to
that user (however it was issued) fails with InvalidToken against any user
list, time, and entropy thereafter. -/
theorem change_password_invalidates_sessions
    (verify : String → String → Bool) (newHash : String)
    (users usersA : List UserRec) (userId : Nat) (cur : String)
    (st stA : St)
    (hwf : ledgerWf st)
    (hsucc : changePassword verify newHash users userId cur st
      = (.ok (), (usersA, stA))) :
    (∀ r ∈ stA.recs, r.userId ≠ userId) ∧
    (∀ t d, findToken t st = some d → d.userId = userId →
      ∀ (users2 : List UserRec) (now2 : Nat) (entropy2 : List Nat),
        (refreshAccessToken users2 now2 entropy2 t stA).1
          = .error ⟨.INVALID_TOKEN, none⟩) := by
  have hstA : stA = deleteManyByUser userId st := by
    unfold changePassword at hsucc
    split at hsucc
    · simp at hsucc
    · split at hsucc
      · simp at hsucc
      · split at hsucc
        · simp at hsucc
        · rw [Prod.mk.injEq, Prod.mk.injEq] at hsucc
          exact hsucc.2.2.symm
  subst hstA
  constructor
  · intro r hr
    simp only [deleteManyByUser, List.mem_filter] at hr
    simpa using hr.2
  · intro t d hfind howner users2 now2 entropy2
    have hnone : findToken t (deleteManyByUser userId st) = none := by
      simp only [findToken, deleteManyByUser]
      exact find_token_filter_user_none st.recs t userId d hwf hfind howner
    unfold refreshAccessToken rotateFinish rotateLookup
    rw [hnone]

/-- Witness for C5: a user with two sessions changes the password. -/
theorem change_password_invalidates_sessions_witness :
    (∀ r ∈ demoCP.2.2.recs, r.userId ≠ 1) ∧
    (∀ t d, findToken t demoStCP = some d → d.userId = 1 →
      ∀ (users2 : List UserRec) (now2 : Nat) (entropy2 : List Nat),
        (refreshAccessToken users2 now2 entropy2 t demoCP.2.2).1
          = .error ⟨.INVALID_TOKEN, none⟩) :=
  change_password_invalidates_sessions (fun c h => c == h) "nh" demoUsersCP
    demoCP.2.1 1 "pw" demoStCP demoCP.2.2 (by decide) (by decide)

/-- C6: logout(userId, t) deletes exactly the ledger records matching the
pair (userId, t) and leaves every other record unchanged (other tokens of
the same user, and equal-valued tokens of other users - the filter keeps
any record failing either component of the pair); logout(userId) deletes
exactly the records owned by userId; both forms are no-ops (success, not
error) on zero matches; and any other still-valid record of the same user
still rotates successfully afterwards. -/
theorem logout_scoping
    (uid : Nat) (t : String) (st : St)
    (hwf : ledgerWf st) :
    (logout uid (some t) st).recs
        = st.recs.filter (fun r => !(r.userId == uid && r.token == t)) ∧
    (logout uid none st).recs = st.recs.filter (fun r => !(r.userId == uid)) ∧
    ((∀ r ∈ st.recs, ¬(r.userId = uid ∧ r.token = t)) → logout uid (some t) st = st) ∧
    ((∀ r ∈ st.recs, r.userId ≠ uid) → logout uid none st = st) ∧
    (∀ (tB : String) (d : RefreshRec) (u : UserRec) (users : List UserRec)
        (now : Nat) (entropy : List Nat),
      findToken tB st = some d → ¬(d.userId = uid ∧ d.token = t) →
      ¬ d.expiresAt < now → findById users d.userId = some u → u.isActive = true →
      rotationSucceeded
        (refreshAccessToken users now entropy tB (logout uid (some t) st)).1 = true) := by
  have hfilter : (logout uid (some t) st).recs
      = st.recs.filter (fun r => !(r.userId == uid && r.token == t)) := by
    simp only [logout, deleteOneUserToken]
    exact eraseP_userToken_eq_filter st.recs uid t hwf
  refine ⟨hfilter, rfl, ?_, ?_, ?_⟩
  · intro h
    have h3 : st.recs.eraseP (fun r => r.userId == uid && r.token == t) = st.recs :=
      List.eraseP_of_forall_not (by intro a ha; simpa using h a ha)
    simp only [logout, deleteOneUserToken, h3]
  · intro h
    have h4 : st.recs.filter (fun r => !(r.userId == uid)) = st.recs :=
      List.filter_eq_self.2 (by intro a ha; simpa using h a ha)
    simp only [logout, deleteManyByUser, h4]
  · intro tB d u users now entropy hfind hne hexpi hu hact
    have hq : (fun r : RefreshRec => !(r.userId == uid && r.token == t)) d = true := by
      by_cases h1 : d.userId = uid
      · by_cases h2 : d.token = t
        · exact absurd ⟨h1, h2⟩ hne
        · simp [h2]
      · simp [h1]
    have hkeep : findToken tB (logout uid (some t) st) = some d := by
      have : findToken tB (logout uid (some t) st)
          = (st.recs.filter (fun r => !(r.userId == uid && r.token == t))).find?
              (fun r => r.token == tB) := by
        simp only [findToken]
        rw [hfilter]
      rw [this]
      exact find_token_filter_keep st.recs tB _ d hfind hq
    rw [rotate_ok_of users now entropy tB (logout uid (some t) st) d u hkeep hexpi hu hact]
    rfl

/-- Witness for C6: single-device logout of tokA leaves tokB rotatable. -/
theorem logout_scoping_witness :
    (logout 1 (some "tokA") demoStCP).recs
        = demoStCP.recs.filter (fun r => !(r.userId == 1 && r.token == "tokA")) ∧
    (logout 1 none demoStCP).recs = demoStCP.recs.filter (fun r => !(r.userId == 1)) ∧
    ((∀ r ∈ demoStCP.recs, ¬(r.userId = 1 ∧ r.token = "tokA")) →
      logout 1 (some "tokA") demoStCP = demoStCP) ∧
    ((∀ r ∈ demoStCP.recs, r.userId ≠ 1) → logout 1 none demoStCP = demoStCP) ∧
    (∀ (tB : String) (d : RefreshRec) (u : UserRec) (users : List UserRec)
        (now : Nat) (entropy : List Nat),
      findToken tB demoStCP = some d → ¬(d.userId = 1 ∧ d.token = "tokA") →
      ¬ d.expiresAt < now → findById users d.userId = some u → u.isActive = true →
      rotationSucceeded
        (refreshAccessToken users now entropy tB
          (logout 1 (some "tokA") demoStCP)).1 = true) :=
  logout_scoping 1 "tokA" demoStCP (by decide)

/-! ## C7: token generation parameters -/

theorem hexEncode_length (bs : List Nat) : (hexEncode bs).length = 2 * bs.length := by
  show ((bs.map hexByte).flatten).length = 2 * bs.length
  induction bs with
  | nil => rfl
  | cons b l ih =>
    simp only [List.map_cons, List.flatten_cons, List.length_append, List.length_cons,
      hexByte, List.length_nil]
    omega

/-- C7 counterexample: crypto.randomBytes(40) draws 40 bytes = 320 bits of
randomness, not 160; the hex-encoded token is 80 characters, not the 40
that 160 bits would give. -/
theorem refresh_token_entropy_counterexample :
    randomBytesCount * 8 = 320 ∧
    ¬ randomBytesCount * 8 = 160 ∧
    (generateTokens demoE7 1000 demoUser7 ⟨[], 0⟩).1.refreshToken.length = 80 ∧
    ¬ (generateTokens demoE7 1000 demoUser7 ⟨[], 0⟩).1.refreshToken.length = 40 := by
  decide

/-- C7 amended: the refresh token is the hex encoding of 40 bytes
(320 bits) of cryptographic entropy, and issuing the pair appends exactly
one ledger record whose expiresAt equals the issuance time plus 7 days
(expiryDays = 7, parsed from the "7d" config default). -/
theorem generate_tokens_amended
    (entropy : List Nat) (now : Nat) (u : UserRec) (st : St)
    (hlen : randomBytesCount ≤ entropy.length) :
    (generateTokens entropy now u st).1.refreshToken
        = hexEncode (entropy.take randomBytesCount) ∧
    (generateTokens entropy now u st).1.refreshToken.length = 2 * randomBytesCount ∧
    (generateTokens entropy now u st).2.recs
        = st.recs ++ [⟨st.nextId, u.id,
            hexEncode (entropy.take randomBytesCount), now + refreshTtlMs⟩] ∧
    refreshTtlMs = expiryDays * 24 * 60 * 60 * 1000 ∧
    expiryDays = 7 := by
  refine ⟨rfl, ?_, rfl, rfl, rfl⟩
  show (hexEncode (entropy.take randomBytesCount)).length = 2 * randomBytesCount
  rw [hexEncode_length, List.length_take]
  omega

/-- Witness for the C7 amendment at a concrete entropy buffer. -/
theorem generate_tokens_amended_witness :
    (generateTokens demoE7 1000 demoUser7 ⟨[], 0⟩).1.refreshToken
        = hexEncode (demoE7.take randomBytesCount) ∧
    (generateTokens demoE7 1000 demoUser7 ⟨[], 0⟩).1.refreshToken.length
        = 2 * randomBytesCount ∧
    (generateTokens demoE7 1000 demoUser7 ⟨[], 0⟩).2.recs
        = (⟨[], 0⟩ : St).recs ++ [⟨(⟨[], 0⟩ : St).nextId, demoUser7.id,
            hexEncode (demoE7.take randomBytesCount), 1000 + refreshTtlMs⟩] ∧
    refreshTtlMs = expiryDays * 24 * 60 * 60 * 1000 ∧
    expiryDays = 7 :=
  generate_tokens_amended demoE7 1000 demoUser7 ⟨[], 0⟩ (by decide)

/-- C8: when the pre-checks pass (they read a store state without the
rival record) but the unique constraint rejects the create (the rival
signup committed in between), the raw duplicate-key error is not an
AppError, so the error handler surfaces it as a generic 500 SERVER_ERROR
instead of the claimed 409 Conflict(DUPLICATE_EMAIL). -/
theorem signup_race_surfaces_as_server_error :
    signupStepped [] [⟨7, "a@x.com", "rival", "h", .member, true, none⟩] 8
        "a@x.com" "pw" "a_user" .member
      = .error (.store (.duplicateKey "email")) ∧
    errorHandlerResponse (.store (.duplicateKey "email")) = (500, "SERVER_ERROR") ∧
    ¬ errorHandlerResponse (.store (.duplicateKey "email")) = (409, "DUPLICATE_EMAIL") ∧
    errorHandlerResponse (.app ⟨.DUPLICATE_EMAIL, none⟩) = (409, "DUPLICATE_EMAIL") ∧
    errorHandlerResponse (.app ⟨.DUPLICATE_USERNAME, none⟩)
      = (409, "DUPLICATE_USERNAME") := by
  decide

/-- C9: with the user found and active but the password mismatching, login
fails with InvalidCredentials and leaves the ledger untouched; an account
with a linked googleId carries the distinguishing Google message, any
other account the generic default message. -/
theorem login_password_mismatch
    (verify : String → String → Bool) (users : List UserRec)
    (now : Nat) (entropy : List Nat) (email password : String) (st : St)
    (u : UserRec)
    (hfind : users.find? (fun v => v.email == toLowerStr email) = some u)
    (hact : u.isActive = true)
    (hmis : verify password u.passwordHash = false) :
    login verify users now entropy email password st
      = (.error ⟨.INVALID_CREDENTIALS,
          if u.googleId.isSome then
            some "This account uses Google Sign-In. Please sign in with Google."
          else none⟩, st) ∧
    AppError.renderedMessage ⟨.INVALID_CREDENTIALS, none⟩
      = "Invalid email or password" ∧
    AppError.renderedMessage ⟨.INVALID_CREDENTIALS,
        some "This account uses Google Sign-In. Please sign in with Google."⟩
      = "This account uses Google Sign-In. Please sign in with Google." := by
  refine ⟨?_, rfl, rfl⟩
  by_cases hg : u.googleId.isSome = true
  · simp [login, hfind, hact, hmis, hg]
  · simp [login, hfind, hact, hmis, hg]

/-- Witness for C9: a federated account presented with a wrong password. -/
theorem login_password_mismatch_witness :
    login (fun _ _ => false) [demoUserGoogle] 500 demoE "G@x.com" "wrong" demoSt
      = (.error ⟨.INVALID_CREDENTIALS,
          if demoUserGoogle.googleId.isSome then
            some "This account uses Google Sign-In. Please sign in with Google."
          else none⟩, demoSt) ∧
    AppError.renderedMessage ⟨.INVALID_CREDENTIALS, none⟩
      = "Invalid email or password" ∧
    AppError.renderedMessage ⟨.INVALID_CREDENTIALS,
        some "This account uses Google Sign-In. Please sign in with Google."⟩
      = "This account uses Google Sign-In. Please sign in with Google." :=
  login_password_mismatch (fun _ _ => false) [demoUserGoogle] 500 demoE
    "G@x.com" "wrong" demoSt demoUserGoogle (by decide) (by decide) (by decide)

/-- C10: hasPermission is a pure lookup in the static table - true exactly
when the permission is listed for the role, false on an undefined role;
permissions are not cumulative: admin lacks security:manage, which member
holds, so requirePermission(security:manage) answers Forbidden to an
authenticated admin. -/
theorem hasPermission_static_lookup :
    (∀ r : UserRole, r ∈ allRoles) ∧
    (∀ p : Permission, p ∈ allPermissions) ∧
    (∀ r ∈ allRoles, ∀ p ∈ allPermissions,
      (hasPermission (some r) p = true ↔ p ∈ ROLE_PERMISSIONS r)) ∧
    (∀ p ∈ allPermissions, hasPermission none p = false) ∧
    hasPermission (some .admin) .securityManage = false ∧
    hasPermission (some .member) .securityManage = true ∧
    (∀ u : AuthUser, u.role = .admin →
      requirePermission .securityManage (some u)
        = .failForbidden ("Access denied. Required permission: "
            ++ permissionName .securityManage)) := by
  refine ⟨?_, ?_, by decide, by decide, by decide, by decide, ?_⟩
  · intro r
    cases r <;> decide
  · intro p
    cases p <;> decide
  · intro u hu
    simp only [requirePermission, hu]
    rfl

/-- Witness for C10: a concrete authenticated admin is rejected with
Forbidden on security:manage. -/
theorem hasPermission_static_lookup_witness :
    requirePermission .securityManage (some ⟨1, .admin⟩)
      = .failForbidden ("Access denied. Required permission: "
          ++ permissionName .securityManage) :=
  hasPermission_static_lookup.2.2.2.2.2.2 ⟨1, .admin⟩ rfl
